import Mathlib

/-!
Verification development for the atc-blender USS federation substrate.

Shallow embedding of the subsystems referenced by the specification:
the RID cluster builder (`rid_operations/dss_rid_helper.py`), the safe
JSON fetcher (`common/http_download.py`), the authority token broker
(`auth_helper/dss_auth_helper.py`), the JWKS verifier cache and the
scope-enforcing request gate (`auth_helper/utils.py`), and the DSS
federation coordinator (`rid_operations/dss_rid_helper.py`).

Conventions: Python floats and datetimes are modelled as rationals
(`ℚ`); the pyproj WGS84 geodesic primitives and `math.sqrt` are taken
as parameters of the cluster functions (the enlargement logic under
scrutiny does not depend on their concrete values); network and store
effects are modelled by explicit oracles and event traces.
-/

namespace AtcBlender

/-! ## RID cluster builder (`rid_operations/dss_rid_helper.py`) -/

/-- The `Cluster` dataclass of `rid_operations.rid_utils` as used by
`extend_cluster`: an axis-aligned rectangle plus the point set. -/
structure Cluster where
  x_min : ℚ
  x_max : ℚ
  y_min : ℚ
  y_max : ℚ
  points : List (ℚ × ℚ)
  deriving Repr, DecidableEq

/-- The `ClusterPosition` dataclass (a lat/lng pair). -/
structure ClusterPosition where
  lat : ℚ
  lng : ℚ
  deriving Repr, DecidableEq

/-- The `ClusterDetail` dataclass returned by `generate_cluster_details`. -/
structure ClusterDetail where
  corners : List ClusterPosition
  area_sqm : ℚ
  number_of_flights : ℕ
  deriving Repr, DecidableEq

/-- `RemoteIDOperations.extend_cluster`.

Parameters abstracting external libraries:
* `glen x1 y1 x2 y2` models `geod.geometry_length(LineString([Point(x1, y1),
  Point(x2, y2)]))` (pyproj WGS84 geodesic arc length);
* `sqrtQ` models `math.sqrt`;
* `D` is `NetMinObfuscationDistanceM` and `P` is `NetMinClusterSizePercent`
  (imported constants of `uas_standards.astm.f3411.v22a`).

The three `if` blocks mirror the source exactly: note that each block
constructs its `Cluster` from the ORIGINAL `min_x`/`min_y`/`max_x`/`max_y`
arguments and that `cluster_width`, `cluster_height` and `cluster_area`
are computed once, before any enlargement. (In Python, `min_cluster_area /
cluster_area` raises `ZeroDivisionError` for a degenerate box; rational
division by zero returns 0 here, which only affects inputs with
`cluster_area = 0`.) -/
def extend_cluster (glen : ℚ → ℚ → ℚ → ℚ → ℚ) (sqrtQ : ℚ → ℚ) (D P : ℚ)
    (view_area_sqm min_x min_y max_x max_y : ℚ)
    (all_positions : List (ℚ × ℚ)) : Cluster :=
  let cluster : Cluster :=
    { x_min := min_x, x_max := max_x, y_min := min_y, y_max := max_y, points := all_positions }
  let cluster_width := glen min_x min_y max_x min_y
  let cluster_height := glen min_x min_y min_x max_y
  let cluster_area := cluster_width * cluster_height
  let cluster : Cluster :=
    if cluster_width < 2 * D then
      let delta := D - cluster_width / 2
      { x_min := min_x - delta, x_max := max_x + delta, y_min := min_y, y_max := max_y,
        points := all_positions }
    else cluster
  let cluster : Cluster :=
    if cluster_height < 2 * D then
      let delta := D - cluster_height / 2
      { x_min := min_x, x_max := max_x, y_min := min_y - delta, y_max := max_y + delta,
        points := all_positions }
    else cluster
  let min_cluster_area := view_area_sqm * P / 100
  let cluster : Cluster :=
    if cluster_area < min_cluster_area then
      let scale := sqrtQ (min_cluster_area / cluster_area) / 2
      { x_min := min_x - scale * cluster_width, x_max := max_x + scale * cluster_width,
        y_min := min_y - scale * cluster_height, y_max := max_y + scale * cluster_height,
        points := all_positions }
    else cluster
  cluster

/-- `RemoteIDOperations.generate_cluster_details`.

The view polygon is represented by its shapely bounds
`(viewMinX, viewMinY, viewMaxX, viewMaxY)` together with
`view_area_sqm`, the value of `compute_polygon_area(view_box)` (a pyproj
geodesic area, taken as a parameter).  `flights` carries each flight's
`most_recent_position` as the `(lat, lng)` pair that the source turns into
`Point(lat, lng)`. -/
def generate_cluster_details (glen : ℚ → ℚ → ℚ → ℚ → ℚ) (sqrtQ : ℚ → ℚ) (D P : ℚ)
    (viewMinX viewMinY viewMaxX viewMaxY : ℚ) (view_area_sqm : ℚ)
    (flights : List (ℚ × ℚ)) : List ClusterDetail :=
  let view_min_point : ℚ × ℚ := (viewMinX, viewMinY)
  let view_max_point : ℚ × ℚ := (viewMaxX, viewMaxY)
  let all_positions : List (ℚ × ℚ) := view_min_point :: view_max_point :: flights
  let rest := view_max_point :: flights
  let min_x := rest.foldl (fun acc p => min acc p.1) view_min_point.1
  let min_y := rest.foldl (fun acc p => min acc p.2) view_min_point.2
  let max_x := rest.foldl (fun acc p => max acc p.1) view_min_point.1
  let max_y := rest.foldl (fun acc p => max acc p.2) view_min_point.2
  let extended_cluster :=
    extend_cluster glen sqrtQ D P view_area_sqm min_x min_y max_x max_y all_positions
  let number_of_flights := flights.length
  let cluster : ClusterDetail :=
    { corners := [
        { lat := extended_cluster.y_min, lng := extended_cluster.x_min },
        { lat := extended_cluster.y_max, lng := extended_cluster.x_max }],
      area_sqm := view_area_sqm,
      number_of_flights := number_of_flights }
  [cluster]

/-- Equatorial-scale geodesic length used to instantiate `glen` on concrete
inputs: for axis-aligned edges near the equator, the WGS84 geodesic length of
a one-axis segment is about 111320 m per degree, so this agrees with
`geod.geometry_length` on the bottom/left edges the code measures. -/
def glenDeg (x1 y1 x2 y2 : ℚ) : ℚ := 111320 * (|x2 - x1| + |y2 - y1|)

/-- C1: the claim states that `generate_cluster_details` (via `extend_cluster`)
produces a rectangle whose geodesic width and height are each at least
`2·NetMinObfuscationDistanceM` and whose area meets the
`NetMinClusterSizePercent` floor, the three enlargement steps being chained,
each operating on the previous step's output.  The code instead rebuilds every
step's rectangle from the ORIGINAL bounding box, so a later step discards an
earlier enlargement.  Failing input (with `D = 300`, `P = 1/2`, the published
ASTM values): a view box `[0, 0.001]×[0, 0.001]` degrees near the equator
(bottom edge ≈ 111.32 m) with no flights and geodesic view area 12392 m².
Both the width and the height steps fire; the height step resets the x-range
to the original `[0, 0.001]`; the area step does not fire.  The returned
rectangle keeps the original x-range, so its bottom edge still measures
111.32 m < 600 m = 2·D: the width floor is violated and the steps are not
chained. -/
theorem generate_cluster_details_width_floor_violated :
    generate_cluster_details glenDeg (fun _ => 0) 300 (1/2) 0 0 (1/1000) (1/1000) 12392 [] =
      [{ corners := [{ lat := -12217/50, lng := 0 }, { lat := 244341/1000, lng := 1/1000 }],
         area_sqm := 12392, number_of_flights := 0 }] ∧
    glenDeg 0 0 (1/1000) 0 < 2 * 300 ∧
    glenDeg 0 (-12217/50) (1/1000) (-12217/50) < 2 * 300 := by
  refine ⟨?_, by norm_num [glenDeg, abs_of_nonneg], by norm_num [glenDeg, abs_of_nonneg]⟩
  norm_num [generate_cluster_details, extend_cluster, glenDeg, abs_of_nonneg]

/-! ## Authority token broker (`auth_helper/dss_auth_helper.py`) -/

/-- A credentials dict as returned by the token endpoint (`access_token`
plus the optional `error` member that `create_dss_isa` inspects). -/
structure Credentials where
  access_token : String
  error : Option String := none
  deriving Repr, DecidableEq

/-- The value cached in Redis by `_cache_credentials`:
`{"credentials": …, "created_at": self.now.isoformat()}`.  Datetimes are
rationals (seconds); the `isoformat`/`strptime` round trip is the identity. -/
structure CacheRecord where
  credentials : Credentials
  created_at : ℚ
  deriving Repr, DecidableEq

/-- Python exception kinds raised by the embedded code. -/
inductive PyError
  | unboundLocal
  | invalidTokenType
  | requestException
  | jsonParseError
  deriving Repr, DecidableEq

/-- Externally visible effects of the broker: network token requests and
Redis writes (`set`, `expire`). -/
inductive BrokerEvent
  | fetch (audience : String) (scopes : List String)
  | redisSet (key : String) (record : CacheRecord)
  | redisExpire (key : String) (ttl_s : ℚ)
  deriving Repr, DecidableEq

/-- The Redis token cache as a key/value association list. -/
abbrev TokenStore := List (String × CacheRecord)

def storeGet (s : TokenStore) (k : String) : Option CacheRecord :=
  (s.find? (fun kv => kv.1 == k)).map (fun kv => kv.2)

def storeSet (s : TokenStore) (k : String) (v : CacheRecord) : TokenStore :=
  (k, v) :: s.filter (fun kv => kv.1 != k)

/-- `AuthorityCredentialsGetter.__init__`: the instance keeps a Redis handle
and `self.now = datetime.now()`, the single datetime captured at
construction. -/
structure AuthorityCredentialsGetter where
  store : TokenStore
  now : ℚ

def rid_scopes : List String := ["rid.service_provider", "rid.display_provider"]

def scd_scopes : List String := ["utm.strategic_coordination", "utm.conformance_monitoring_sa"]

def constraints_scopes : List String := ["utm.constraint_processing"]

/-- The `token_suffix` local of `get_cached_credentials`: assigned only by
the `if`/`elif` chain, hence unbound (`none`) for any other token type. -/
def token_suffix (token_type : String) : Option String :=
  if token_type = "rid" then some "_auth_rid_token"
  else if token_type = "scd" then some "_auth_scd_token"
  else if token_type = "constraints" then some "_auth_constraints_token"
  else none

/-- The scope list `_get_credentials` submits for each valid token type. -/
def scopes_for (token_type : String) : List String :=
  if token_type = "rid" then rid_scopes
  else if token_type = "scd" then scd_scopes
  else if token_type = "constraints" then constraints_scopes
  else []

/-- `AuthorityCredentialsGetter._get_credentials`: dispatches to
`_request_credentials` (modelled by the `fetch` oracle, indexed by audience
and scope list) or raises `ValueError("Invalid token type")`. -/
def _get_credentials (fetch : String → List String → Except PyError Credentials)
    (audience token_type : String) : Except PyError Credentials :=
  if token_type = "rid" then fetch audience rid_scopes
  else if token_type = "scd" then fetch audience scd_scopes
  else if token_type = "constraints" then fetch audience constraints_scopes
  else .error .invalidTokenType

/-- `AuthorityCredentialsGetter.get_cached_credentials`.  Returns the Python
outcome together with the Redis store after the call and the list of external
effects.  For a `token_type` outside the `if`/`elif` chain the line
`cache_key = audience + token_suffix` raises `UnboundLocalError` before
`_get_credentials` is ever reached.  On a fresh cached record
(`self.now < created_at + 58 min`) the cached credentials are returned with
no effect; otherwise `_get_credentials` runs and `_cache_credentials` writes
`created_at = self.now` and sets a 58-minute TTL. -/
def get_cached_credentials (inst : AuthorityCredentialsGetter)
    (fetch : String → List String → Except PyError Credentials)
    (audience token_type : String) :
    Except PyError Credentials × TokenStore × List BrokerEvent :=
  match token_suffix token_type with
  | none => (.error .unboundLocal, inst.store, [])
  | some suffix =>
    let cache_key := audience ++ suffix
    let served : Option Credentials :=
      match storeGet inst.store cache_key with
      | some record =>
        if inst.now < record.created_at + 58 * 60 then some record.credentials else none
      | none => none
    match served with
    | some credentials => (.ok credentials, inst.store, [])
    | none =>
      let events := [BrokerEvent.fetch audience (scopes_for token_type)]
      match _get_credentials fetch audience token_type with
      | .error e => (.error e, inst.store, events)
      | .ok credentials =>
        let record : CacheRecord := { credentials := credentials, created_at := inst.now }
        (.ok credentials, storeSet inst.store cache_key record,
         events ++ [.redisSet cache_key record, .redisExpire cache_key (58 * 60)])

lemma _get_credentials_eq_fetch (fetch : String → List String → Except PyError Credentials)
    (audience token_type suffix : String) (h : token_suffix token_type = some suffix) :
    _get_credentials fetch audience token_type = fetch audience (scopes_for token_type) := by
  unfold token_suffix at h
  unfold _get_credentials scopes_for
  split_ifs at h <;> simp_all

lemma storeGet_storeSet (s : TokenStore) (k : String) (v : CacheRecord) :
    storeGet (storeSet s k v) k = some v := by
  simp [storeGet, storeSet, List.find?_cons_of_pos]

/-- C3: for a valid token type, when the first call misses the cache and the
token endpoint answers `creds`, the first call issues exactly one network
fetch followed by one Redis `set` recording `created_at = self.now = t0` and
one `expire` with a 58-minute TTL; a second call whose instance datetime `t1`
is within 58 minutes of `t0` returns the equal credentials with no network
request and no further store write.  Moreover, for any store and instance
datetime, a cached record is served (no effect at all) iff
`now < created_at + 58 min`, and the served value is the cached one. -/
theorem get_cached_credentials_two_calls_within_58min
    (t0 t1 : ℚ) (s0 : TokenStore)
    (fetch : String → List String → Except PyError Credentials)
    (audience token_type suffix : String) (creds : Credentials)
    (hsuffix : token_suffix token_type = some suffix)
    (hmiss : storeGet s0 (audience ++ suffix) = none)
    (hfetch : fetch audience (scopes_for token_type) = .ok creds)
    (hfresh : t1 < t0 + 58 * 60) :
    (get_cached_credentials ⟨s0, t0⟩ fetch audience token_type).1 = .ok creds ∧
    (get_cached_credentials ⟨s0, t0⟩ fetch audience token_type).2.2 =
      [.fetch audience (scopes_for token_type),
       .redisSet (audience ++ suffix) ⟨creds, t0⟩,
       .redisExpire (audience ++ suffix) (58 * 60)] ∧
    (get_cached_credentials ⟨(get_cached_credentials ⟨s0, t0⟩ fetch audience token_type).2.1, t1⟩
        fetch audience token_type).1 = .ok creds ∧
    (get_cached_credentials ⟨(get_cached_credentials ⟨s0, t0⟩ fetch audience token_type).2.1, t1⟩
        fetch audience token_type).2.2 = [] ∧
    (∀ (s : TokenStore) (t : ℚ) (record : CacheRecord),
      storeGet s (audience ++ suffix) = some record →
      (((get_cached_credentials ⟨s, t⟩ fetch audience token_type).2.2 = []) ↔
        t < record.created_at + 58 * 60) ∧
      (t < record.created_at + 58 * 60 →
        (get_cached_credentials ⟨s, t⟩ fetch audience token_type).1 = .ok record.credentials)) := by
  have hget := _get_credentials_eq_fetch fetch audience token_type suffix hsuffix
  rw [hfetch] at hget
  refine ⟨?_, ?_, ?_, ?_, ?_⟩
  · simp [get_cached_credentials, hsuffix, hmiss, hget]
  · simp [get_cached_credentials, hsuffix, hmiss, hget]
  · simp [get_cached_credentials, hsuffix, hmiss, hget, storeGet_storeSet, hfresh]
  · simp [get_cached_credentials, hsuffix, hmiss, hget, storeGet_storeSet, hfresh]
  · intro s t record hrec
    constructor
    · by_cases hf : t < record.created_at + 58 * 60
      · simp [get_cached_credentials, hsuffix, hrec, hf]
      · simp [get_cached_credentials, hsuffix, hrec, hf, hget]
    · intro hf
      simp [get_cached_credentials, hsuffix, hrec, hf]

/-- Witness for C3 at `audience="dss.example"`, `token_type="rid"`, first
miss at `t0 = 0`, second call at `t1 = 3000 s` (50 minutes later). -/
theorem get_cached_credentials_two_calls_within_58min_witness :
    (get_cached_credentials ⟨[], 0⟩ (fun _ _ => .ok { access_token := "t1" })
        "dss.example" "rid").1 = .ok { access_token := "t1" } ∧
    (get_cached_credentials
        ⟨(get_cached_credentials ⟨[], 0⟩ (fun _ _ => .ok { access_token := "t1" })
            "dss.example" "rid").2.1, 3000⟩
        (fun _ _ => .ok { access_token := "t1" }) "dss.example" "rid").2.2 = [] := by
  have h := get_cached_credentials_two_calls_within_58min 0 3000 []
    (fun _ _ => .ok { access_token := "t1" }) "dss.example" "rid" "_auth_rid_token"
    { access_token := "t1" } rfl rfl rfl (by norm_num)
  exact ⟨h.1, h.2.2.2.1⟩

/-- C8: for a token type outside `{rid, scd, constraints}`,
`get_cached_credentials` does not fail with `ValueError("Invalid token
type")`: the line `cache_key = audience + token_suffix` raises
`UnboundLocalError` first, because the `if`/`elif` chain never assigned
`token_suffix`.  No store write happens.  The `ValueError` branch does exist
in `_get_credentials` but is unreachable from `get_cached_credentials`. -/
theorem get_cached_credentials_bogus_type_raises_unbound_local :
    get_cached_credentials ⟨[], 0⟩ (fun _ _ => .ok { access_token := "t1" })
        "dss.example" "bogus" = (.error .unboundLocal, [], []) ∧
    (Except.error PyError.unboundLocal : Except PyError Credentials) ≠
      .error .invalidTokenType ∧
    _get_credentials (fun _ _ => .ok { access_token := "t1" }) "dss.example" "bogus" =
      .error .invalidTokenType := by
  exact ⟨rfl, by simp, rfl⟩

/-- C10: every `created_at` the broker stores equals `self.now`, the datetime
captured at construction, and the freshness comparison is made against that
same `self.now` — the method reads no wall clock (there is no call-time
input in the code at all).  Consequently a later call on the same instance is
always served from the cache, with no network request and no write,
regardless of elapsed real time. -/
theorem broker_freshness_uses_construction_time
    (inst : AuthorityCredentialsGetter)
    (fetch : String → List String → Except PyError Credentials)
    (audience token_type suffix : String) (creds : Credentials)
    (hsuffix : token_suffix token_type = some suffix)
    (hfetch : fetch audience (scopes_for token_type) = .ok creds) :
    (∀ key record,
      BrokerEvent.redisSet key record ∈
        (get_cached_credentials inst fetch audience token_type).2.2 →
      record.created_at = inst.now) ∧
    (∀ record, storeGet inst.store (audience ++ suffix) = some record →
      (((get_cached_credentials inst fetch audience token_type).2.2 = []) ↔
        inst.now < record.created_at + 58 * 60)) ∧
    (get_cached_credentials
        ⟨(get_cached_credentials inst fetch audience token_type).2.1, inst.now⟩
        fetch audience token_type).1 =
      (get_cached_credentials inst fetch audience token_type).1 ∧
    (get_cached_credentials
        ⟨(get_cached_credentials inst fetch audience token_type).2.1, inst.now⟩
        fetch audience token_type).2.2 = [] := by
  have hget := _get_credentials_eq_fetch fetch audience token_type suffix hsuffix
  rw [hfetch] at hget
  have hserved : ∀ record, storeGet inst.store (audience ++ suffix) = some record →
      inst.now < record.created_at + 58 * 60 →
      get_cached_credentials inst fetch audience token_type =
        (.ok record.credentials, inst.store, []) := by
    intro record hrec hf
    simp [get_cached_credentials, hsuffix, hrec, hf]
  rcases h0 : storeGet inst.store (audience ++ suffix) with _ | record
  · refine ⟨?_, ?_, ?_, ?_⟩
    · intro key record hmem
      simp [get_cached_credentials, hsuffix, h0, hget] at hmem
      simp [hmem]
    · intro record hrec
      exact Option.noConfusion hrec
    · simp [get_cached_credentials, hsuffix, h0, hget, storeGet_storeSet]
    · simp [get_cached_credentials, hsuffix, h0, hget, storeGet_storeSet]
  · by_cases hf : inst.now < record.created_at + 58 * 60
    · have hcall := hserved record h0 hf
      refine ⟨?_, ?_, ?_, ?_⟩
      · intro key rec hmem
        rw [hcall] at hmem
        simp at hmem
      · intro rec hrec
        injection hrec with hrec
        subst hrec
        rw [hcall]
        simpa using hf
      · rw [hcall]
        exact congrArg Prod.fst (hserved record h0 hf)
      · rw [hcall]
        exact congrArg (fun p => p.2.2) (hserved record h0 hf)
    · refine ⟨?_, ?_, ?_, ?_⟩
      · intro key rec hmem
        simp [get_cached_credentials, hsuffix, h0, hf, hget] at hmem
        simp [hmem]
      · intro rec hrec
        injection hrec with hrec
        subst hrec
        simp [get_cached_credentials, hsuffix, h0, hf, hget]
      · simp [get_cached_credentials, hsuffix, h0, hf, hget, storeGet_storeSet]
      · simp [get_cached_credentials, hsuffix, h0, hf, hget, storeGet_storeSet]

/-- Witness for C10 at an instance constructed at `t = 100` with an empty
store. -/
theorem broker_freshness_uses_construction_time_witness :
    (get_cached_credentials
        ⟨(get_cached_credentials ⟨[], 100⟩ (fun _ _ => .ok { access_token := "tW" })
            "aud.example" "scd").2.1, 100⟩
        (fun _ _ => .ok { access_token := "tW" }) "aud.example" "scd").2.2 = [] := by
  have h := broker_freshness_uses_construction_time ⟨[], 100⟩
    (fun _ _ => .ok { access_token := "tW" }) "aud.example" "scd" "_auth_scd_token"
    { access_token := "tW" } rfl rfl
  exact h.2.2.2

/-! ## JWKS verifier cache (`auth_helper/utils.py`, `_get_jwks_cached`)

`J` is the type of a parsed JWKS document, `K` the type of the `kid →
verifier` map; `jtruthy` models Python truthiness of the cached `jwks`
value (an empty dict is falsy) and `buildKeys` models
`_build_public_keys`.  A fetch outcome is `success data` when the GET
succeeded, `raise_for_status` passed, the body parsed as JSON and
`isinstance(data, dict)` held; every other situation (a
`RequestException` or a `ValueError`) is `failure`.  `now` is `_now_s()`
read on entry, `now2` is `_now_s()` re-read after the fetch. -/

/-- The three environment-derived configuration floats of the cache. -/
structure JwksConfig where
  cache_ttl_s : ℚ
  backoff_initial_s : ℚ
  backoff_max_s : ℚ

/-- One `_JWKS_CACHE` entry (the per-URL dict). -/
structure JwksEntry (J K : Type) where
  jwks : Option J
  public_keys : K
  expires_at : ℚ
  next_retry_at : ℚ
  backoff_s : ℚ

/-- Outcome of the network fetch attempt. -/
inductive JwksOutcome (J : Type)
  | success (data : J)
  | failure

/-- What `_get_jwks_cached` hands back to the caller: a `(jwks,
public_keys)` pair, the empty pair `({}, {})`, or a raised
`JwksFetchError`. -/
inductive JwksResult (J K : Type)
  | keys (jwks : Option J) (public_keys : K)
  | empty
  | raiseFetchError

/-- The fresh entry installed for a URL never seen before. -/
def initJwksEntry (cfg : JwksConfig) (emptyK : K) : JwksEntry J K :=
  { jwks := none, public_keys := emptyK, expires_at := 0, next_retry_at := 0,
    backoff_s := max cfg.backoff_initial_s (1/10) }

/-- Truthiness of `entry.get("jwks")`. -/
def entryHasJwks (jtruthy : J → Bool) (e : JwksEntry J K) : Bool :=
  match e.jwks with
  | some j => jtruthy j
  | none => false

/-- `_get_jwks_cached` on an existing entry: returns the updated entry and
the caller-visible result.  The source's branch order is kept: fresh-cache
early return, backoff early return (cached value, else raise when
`required`, else empty), then the fetch with its success/failure update
under the re-entered lock. -/
def _get_jwks_cached (cfg : JwksConfig) (jtruthy : J → Bool) (buildKeys : J → K)
    (e : JwksEntry J K) (now : ℚ) (force_refresh required : Bool)
    (outcome : JwksOutcome J) (now2 : ℚ) : JwksEntry J K × JwksResult J K :=
  if force_refresh = false ∧ entryHasJwks jtruthy e = true ∧ now < e.expires_at then
    (e, .keys e.jwks e.public_keys)
  else if force_refresh = false ∧ now < e.next_retry_at then
    if entryHasJwks jtruthy e = true then (e, .keys e.jwks e.public_keys)
    else if required then (e, .raiseFetchError)
    else (e, .empty)
  else
    match outcome with
    | .success data =>
      ({ jwks := some data, public_keys := buildKeys data,
         expires_at := now2 + max cfg.cache_ttl_s 0, next_retry_at := 0,
         backoff_s := max cfg.backoff_initial_s (1/10) },
       .keys (some data) (buildKeys data))
    | .failure =>
      let b := if e.backoff_s = 0 then max cfg.backoff_initial_s (1/10) else e.backoff_s
      let e' := { e with next_retry_at := now2 + b,
                         backoff_s := min (b * 2) (max cfg.backoff_max_s b) }
      if entryHasJwks jtruthy e = true then (e', .keys e.jwks e.public_keys)
      else if required then (e', .raiseFetchError)
      else (e', .empty)

/-- Whether the call reaches the network fetch (neither early return taken). -/
def jwksFetchAttempted (jtruthy : J → Bool) (e : JwksEntry J K) (now : ℚ)
    (force_refresh : Bool) : Prop :=
  ¬(force_refresh = false ∧ entryHasJwks jtruthy e = true ∧ now < e.expires_at) ∧
  ¬(force_refresh = false ∧ now < e.next_retry_at)

instance (jtruthy : J → Bool) (e : JwksEntry J K) (now : ℚ) (force_refresh : Bool) :
    Decidable (jwksFetchAttempted jtruthy e now force_refresh) := by
  unfold jwksFetchAttempted
  infer_instance

/-- The claim's backoff invariant for one entry. -/
def backoffInRange (cfg : JwksConfig) (e : JwksEntry J K) : Prop :=
  cfg.backoff_initial_s ≤ e.backoff_s ∧ e.backoff_s ≤ cfg.backoff_max_s

lemma jwks_failure_update {J K : Type} (cfg : JwksConfig) (jtruthy : J → Bool)
    (buildKeys : J → K) (e : JwksEntry J K) (now now2 : ℚ) (force_refresh required : Bool)
    (hA : jwksFetchAttempted jtruthy e now force_refresh) (hb : e.backoff_s ≠ 0) :
    (_get_jwks_cached cfg jtruthy buildKeys e now force_refresh required .failure now2).1 =
      { e with next_retry_at := now2 + e.backoff_s,
               backoff_s := min (e.backoff_s * 2) (max cfg.backoff_max_s e.backoff_s) } := by
  obtain ⟨h1, h2⟩ := hA
  unfold _get_jwks_cached
  rw [if_neg h1, if_neg h2]
  simp only [hb, if_false]
  split_ifs <;> rfl

lemma jwks_success_update {J K : Type} (cfg : JwksConfig) (jtruthy : J → Bool)
    (buildKeys : J → K) (e : JwksEntry J K) (now now2 : ℚ) (force_refresh required : Bool)
    (data : J)
    (hA : jwksFetchAttempted jtruthy e now force_refresh) :
    (_get_jwks_cached cfg jtruthy buildKeys e now force_refresh required (.success data) now2).1 =
      { jwks := some data, public_keys := buildKeys data,
        expires_at := now2 + max cfg.cache_ttl_s 0, next_retry_at := 0,
        backoff_s := max cfg.backoff_initial_s (1/10) } := by
  obtain ⟨h1, h2⟩ := hA
  unfold _get_jwks_cached
  rw [if_neg h1, if_neg h2]

lemma jwks_entry_unchanged_on_early {J K : Type} (cfg : JwksConfig) (jtruthy : J → Bool)
    (buildKeys : J → K) (e : JwksEntry J K) (now now2 : ℚ) (force_refresh required : Bool)
    (outcome : JwksOutcome J)
    (hA : ¬ jwksFetchAttempted jtruthy e now force_refresh) :
    (_get_jwks_cached cfg jtruthy buildKeys e now force_refresh required outcome now2).1 = e := by
  unfold jwksFetchAttempted at hA
  unfold _get_jwks_cached
  by_cases h1 : force_refresh = false ∧ entryHasJwks jtruthy e = true ∧ now < e.expires_at
  · rw [if_pos h1]
  · have h2 : force_refresh = false ∧ now < e.next_retry_at := by
      by_contra h2
      exact hA ⟨h1, h2⟩
    rw [if_neg h1, if_pos h2]
    split_ifs <;> rfl

/-- C4: for one cache entry, a failed fetch sets `next_retry_at` to the
fetch time plus the backoff in effect before the failure and doubles the
backoff capped at the configured maximum; a successful fetch resets the
backoff to the configured initial value and `next_retry_at` to 0; the
backoff always stays within `[initial, backoff_max]` (provided the
configured initial is at least the code's 0.1 s floor and at most the
maximum, as the defaults 1 s and 60 s are); and across two consecutive
failed fetches `next_retry_at` does not decrease. -/
theorem jwks_backoff_spec {J K : Type} (cfg : JwksConfig) (jtruthy : J → Bool)
    (buildKeys : J → K) (emptyK : K) (e : JwksEntry J K) (now now2 : ℚ)
    (force_refresh required : Bool)
    (hinit : 1/10 ≤ cfg.backoff_initial_s)
    (hle : cfg.backoff_initial_s ≤ cfg.backoff_max_s)
    (hinv : backoffInRange cfg e) :
    (initJwksEntry cfg emptyK : JwksEntry J K).backoff_s = cfg.backoff_initial_s ∧
    (initJwksEntry cfg emptyK : JwksEntry J K).next_retry_at = 0 ∧
    (jwksFetchAttempted jtruthy e now force_refresh →
      (_get_jwks_cached cfg jtruthy buildKeys e now force_refresh required .failure now2).1.next_retry_at
        = now2 + e.backoff_s ∧
      (_get_jwks_cached cfg jtruthy buildKeys e now force_refresh required .failure now2).1.backoff_s
        = min (e.backoff_s * 2) cfg.backoff_max_s) ∧
    (∀ data : J, jwksFetchAttempted jtruthy e now force_refresh →
      (_get_jwks_cached cfg jtruthy buildKeys e now force_refresh required (.success data) now2).1.backoff_s
        = cfg.backoff_initial_s ∧
      (_get_jwks_cached cfg jtruthy buildKeys e now force_refresh required (.success data) now2).1.next_retry_at
        = 0) ∧
    (∀ outcome : JwksOutcome J,
      backoffInRange cfg
        (_get_jwks_cached cfg jtruthy buildKeys e now force_refresh required outcome now2).1) ∧
    (∀ (now' now2' : ℚ) (force' required' : Bool),
      jwksFetchAttempted jtruthy e now force_refresh →
      now2 ≤ now2' →
      jwksFetchAttempted jtruthy
        (_get_jwks_cached cfg jtruthy buildKeys e now force_refresh required .failure now2).1
        now' force' →
      (_get_jwks_cached cfg jtruthy buildKeys e now force_refresh required .failure now2).1.next_retry_at ≤
        (_get_jwks_cached cfg jtruthy buildKeys
          (_get_jwks_cached cfg jtruthy buildKeys e now force_refresh required .failure now2).1
          now' force' required' .failure now2').1.next_retry_at) := by
  have hb0 : (0:ℚ) < e.backoff_s := lt_of_lt_of_le (by norm_num) (le_trans hinit hinv.1)
  have hbne : e.backoff_s ≠ 0 := ne_of_gt hb0
  have hmaxb : max cfg.backoff_max_s e.backoff_s = cfg.backoff_max_s := max_eq_left hinv.2
  refine ⟨max_eq_left hinit, rfl, ?_, ?_, ?_, ?_⟩
  · intro hA
    rw [jwks_failure_update cfg jtruthy buildKeys e now now2 force_refresh required hA hbne]
    exact ⟨rfl, by rw [hmaxb]⟩
  · intro data hA
    rw [jwks_success_update cfg jtruthy buildKeys e now now2 force_refresh required data hA]
    exact ⟨max_eq_left hinit, rfl⟩
  · intro outcome
    by_cases hA : jwksFetchAttempted jtruthy e now force_refresh
    · cases outcome with
      | success data =>
        rw [jwks_success_update cfg jtruthy buildKeys e now now2 force_refresh required data hA]
        exact ⟨le_max_left _ _, le_of_eq_of_le (max_eq_left hinit) hle⟩
      | failure =>
        rw [jwks_failure_update cfg jtruthy buildKeys e now now2 force_refresh required hA hbne]
        constructor
        · exact le_min (le_trans hinv.1 (by linarith)) (le_trans hle (le_max_left _ _))
        · exact (min_le_right _ _).trans (by rw [hmaxb])
    · rw [jwks_entry_unchanged_on_early cfg jtruthy buildKeys e now now2 force_refresh required outcome hA]
      exact hinv
  · intro now' now2' force' required' hA1 hnow hA2
    have h1 := jwks_failure_update cfg jtruthy buildKeys e now now2 force_refresh required hA1 hbne
    set e1 := (_get_jwks_cached cfg jtruthy buildKeys e now force_refresh required .failure now2).1 with he1
    have hb1 : cfg.backoff_initial_s ≤ e1.backoff_s := by
      rw [h1]
      exact le_min (le_trans hinv.1 (by linarith)) (le_trans hle (le_max_left _ _))
    have hb1ne : e1.backoff_s ≠ 0 :=
      ne_of_gt (lt_of_lt_of_le (by norm_num) (le_trans hinit hb1))
    have h2 := jwks_failure_update cfg jtruthy buildKeys e1 now' now2' force' required' hA2 hb1ne
    rw [h2, h1]
    simp only
    have hbb : e.backoff_s ≤ e1.backoff_s := by
      rw [h1]
      exact le_min (by linarith) (le_max_right _ _)
    rw [h1] at hbb
    simp only at hbb
    linarith

/-- Witness for C4 with the default configuration (TTL 300 s, initial
backoff 1 s, backoff cap 60 s) on a brand-new entry failing its first fetch
at `t = 1000`. -/
theorem jwks_backoff_spec_witness :
    (_get_jwks_cached (J := Unit) (K := Unit) ⟨300, 1, 60⟩ (fun _ => true) (fun _ => ())
        (initJwksEntry ⟨300, 1, 60⟩ ()) 1000 false true .failure 1000).1.next_retry_at = 1001 ∧
    (_get_jwks_cached (J := Unit) (K := Unit) ⟨300, 1, 60⟩ (fun _ => true) (fun _ => ())
        (initJwksEntry ⟨300, 1, 60⟩ ()) 1000 false true .failure 1000).1.backoff_s = 2 := by
  have h := jwks_backoff_spec (J := Unit) (K := Unit) ⟨300, 1, 60⟩ (fun _ => true) (fun _ => ()) ()
      (initJwksEntry ⟨300, 1, 60⟩ ()) 1000 1000 false true (by norm_num) (by norm_num)
      (by constructor <;> norm_num [initJwksEntry, backoffInRange])
  have hA : jwksFetchAttempted (J := Unit) (K := Unit) (fun _ => true)
      (initJwksEntry ⟨300, 1, 60⟩ ()) 1000 false := by
    constructor <;> simp [initJwksEntry, entryHasJwks]
  have hf := h.2.2.1 hA
  constructor
  · rw [hf.1]
    norm_num [initJwksEntry]
  · rw [hf.2]
    norm_num [initJwksEntry]

/-! ## Safe HTTP fetcher (`common/http_download.py`, `fetch_json_url`)

The network is an oracle `net : String → Option HttpResponse` (`none`
models the GET raising an exception); `validate u ah rh` models
`validate_public_url(u, allow_http=ah, require_https=rh)`; `jparse`
models UTF-8 decoding (with `errors="replace"`, which cannot fail)
followed by `json.loads`; `ujoin` models `urllib.parse.urljoin`. -/

/-- A parsed JSON document. -/
inductive JsonVal where
  | obj (fields : List (String × JsonVal))
  | arr (elems : List JsonVal)
  | str (s : String)
  | num (q : ℚ)
  | boolean (b : Bool)
  | null

/-- `isinstance(parsed, dict)`. -/
def JsonVal.isObj : JsonVal → Bool
  | .obj _ => true
  | _ => false

/-- The `DownloadSettings` dataclass with its environment defaults. -/
structure DownloadSettings where
  timeout_s : ℚ := 10
  max_redirects : ℕ := 3
  max_download_bytes : ℕ := 1048576
  allow_http : Bool := false
  require_https : Bool := true

/-- An HTTP response: status, `Location` and `Content-Type` headers, and the
streamed body chunks (byte lists, as yielded by `iter_content`). -/
structure HttpResponse where
  status : ℕ
  location : Option String
  content_type : Option String
  chunks : List (List ℕ)

/-- `_is_json_content_type`: the lowered `Content-Type` contains `"json"`. -/
def _is_json_content_type (content_type : String) : Bool :=
  (content_type.toLower.toList).tails.any (fun t => "json".toList.isPrefixOf t)

/-- Total streamed length (`total` accumulated over the chunks; empty chunks
are skipped by the source, which does not change the sum). -/
def totalLen (chunks : List (List ℕ)) : ℕ := (chunks.map List.length).sum

/-- The reasons for which `fetch_json_url` returns `None`, one per `return
None` site.  All but `request_failed` correspond to a step of the claim's
enumeration. -/
inductive FetchReject where
  | blocked_url
  | request_failed
  | redirect_without_location
  | too_many_redirects
  | http_status
  | bad_content_type
  | response_too_large
  | invalid_json
  | json_not_object
  deriving Repr, DecidableEq

/-- The body of the `for hop in range(max_redirects + 1)` loop of
`fetch_json_url`; `fuel` is the number of redirect hops still allowed
(`max_redirects - hop`), so the `hop >= max_redirects` guard is `fuel = 0`.
The branch order is the source's: redirect handling (Location, hop cap,
re-validation) before the non-200 check, then Content-Type, size cap, JSON
parse and the object-root requirement. -/
def fetchLoop (validate : String → Bool → Bool → Bool × String)
    (net : String → Option HttpResponse) (jparse : List ℕ → Option JsonVal)
    (ujoin : String → String → String) (st : DownloadSettings) :
    ℕ → String → Option JsonVal
  | fuel, current =>
    match net current with
    | none => none
    | some r =>
      if [301, 302, 303, 307, 308].contains r.status then
        match r.location with
        | none => none
        | some loc =>
          match fuel with
          | 0 => none
          | fuel' + 1 =>
            let next := ujoin current loc
            if (validate next st.allow_http st.require_https).1 then
              fetchLoop validate net jparse ujoin st fuel' next
            else none
      else if r.status ≠ 200 then none
      else
        let ct := r.content_type.getD ""
        if ct ≠ "" ∧ _is_json_content_type ct = false then none
        else if st.max_download_bytes < totalLen r.chunks then none
        else
          match jparse r.chunks.flatten with
          | none => none
          | some parsed => if parsed.isObj then some parsed else none

/-- `fetch_json_url`: validate the initial URL, then run the hop loop. -/
def fetch_json_url (validate : String → Bool → Bool → Bool × String)
    (net : String → Option HttpResponse) (jparse : List ℕ → Option JsonVal)
    (ujoin : String → String → String) (st : DownloadSettings)
    (url : String) : Option JsonVal :=
  if (validate url st.allow_http st.require_https).1 then
    fetchLoop validate net jparse ujoin st st.max_redirects url
  else none

/-- Modelled from the spec's step list (B1): the same loop with every
`return None` labelled by its rejection step, used to compare the claim's
"returns None iff some step rejects" enumeration against `fetch_json_url`. -/
def fetchLoopE (validate : String → Bool → Bool → Bool × String)
    (net : String → Option HttpResponse) (jparse : List ℕ → Option JsonVal)
    (ujoin : String → String → String) (st : DownloadSettings) :
    ℕ → String → Except FetchReject JsonVal
  | fuel, current =>
    match net current with
    | none => .error .request_failed
    | some r =>
      if [301, 302, 303, 307, 308].contains r.status then
        match r.location with
        | none => .error .redirect_without_location
        | some loc =>
          match fuel with
          | 0 => .error .too_many_redirects
          | fuel' + 1 =>
            let next := ujoin current loc
            if (validate next st.allow_http st.require_https).1 then
              fetchLoopE validate net jparse ujoin st fuel' next
            else .error .blocked_url
      else if r.status ≠ 200 then .error .http_status
      else
        let ct := r.content_type.getD ""
        if ct ≠ "" ∧ _is_json_content_type ct = false then .error .bad_content_type
        else if st.max_download_bytes < totalLen r.chunks then .error .response_too_large
        else
          match jparse r.chunks.flatten with
          | none => .error .invalid_json
          | some parsed => if parsed.isObj then .ok parsed else .error .json_not_object

/-- Modelled from the spec's step list (B1): labelled variant of
`fetch_json_url`. -/
def fetch_json_urlE (validate : String → Bool → Bool → Bool × String)
    (net : String → Option HttpResponse) (jparse : List ℕ → Option JsonVal)
    (ujoin : String → String → String) (st : DownloadSettings)
    (url : String) : Except FetchReject JsonVal :=
  if (validate url st.allow_http st.require_https).1 then
    fetchLoopE validate net jparse ujoin st st.max_redirects url
  else .error .blocked_url

/-- The URLs actually passed to `s.get` by the loop, in order. -/
def fetchRequestedUrls (validate : String → Bool → Bool → Bool × String)
    (net : String → Option HttpResponse)
    (ujoin : String → String → String) (st : DownloadSettings) :
    ℕ → String → List String
  | fuel, current =>
    match net current with
    | none => [current]
    | some r =>
      if [301, 302, 303, 307, 308].contains r.status then
        match r.location with
        | none => [current]
        | some loc =>
          match fuel with
          | 0 => [current]
          | fuel' + 1 =>
            let next := ujoin current loc
            if (validate next st.allow_http st.require_https).1 then
              current :: fetchRequestedUrls validate net ujoin st fuel' next
            else [current]
      else [current]

/-- The URLs `fetch_json_url` sends a GET to. -/
def fetch_json_url_requested (validate : String → Bool → Bool → Bool × String)
    (net : String → Option HttpResponse)
    (ujoin : String → String → String) (st : DownloadSettings)
    (url : String) : List String :=
  if (validate url st.allow_http st.require_https).1 then
    fetchRequestedUrls validate net ujoin st st.max_redirects url
  else []

lemma fetchLoop_eq_toOption (validate : String → Bool → Bool → Bool × String)
    (net : String → Option HttpResponse) (jparse : List ℕ → Option JsonVal)
    (ujoin : String → String → String) (st : DownloadSettings) :
    ∀ (fuel : ℕ) (current : String),
      fetchLoop validate net jparse ujoin st fuel current =
        (fetchLoopE validate net jparse ujoin st fuel current).toOption := by
  intro fuel
  induction fuel with
  | zero =>
    intro current
    unfold fetchLoop fetchLoopE
    simp only
    repeat' first
      | rfl
      | split
  | succ fuel' ih =>
    intro current
    unfold fetchLoop fetchLoopE
    simp only
    repeat' first
      | rfl
      | exact ih _
      | split

lemma fetchLoop_isObj (validate : String → Bool → Bool → Bool × String)
    (net : String → Option HttpResponse) (jparse : List ℕ → Option JsonVal)
    (ujoin : String → String → String) (st : DownloadSettings) :
    ∀ (fuel : ℕ) (current : String) (v : JsonVal),
      fetchLoop validate net jparse ujoin st fuel current = some v → v.isObj = true := by
  intro fuel
  induction fuel with
  | zero =>
    intro current v
    unfold fetchLoop
    simp only
    repeat' first
      | (intro h; exact Option.noConfusion h)
      | (intro h; injection h with h; subst h; assumption)
      | split
  | succ fuel' ih =>
    intro current v
    unfold fetchLoop
    simp only
    repeat' first
      | (intro h; exact Option.noConfusion h)
      | (intro h; injection h with h; subst h; assumption)
      | exact ih _ _
      | split

lemma fetchRequestedUrls_validated (validate : String → Bool → Bool → Bool × String)
    (net : String → Option HttpResponse)
    (ujoin : String → String → String) (st : DownloadSettings) :
    ∀ (fuel : ℕ) (current : String),
      (validate current st.allow_http st.require_https).1 = true →
      ∀ u ∈ fetchRequestedUrls validate net ujoin st fuel current,
        (validate u st.allow_http st.require_https).1 = true := by
  intro fuel
  induction fuel with
  | zero =>
    intro current hc u hu
    unfold fetchRequestedUrls at hu
    simp only at hu
    repeat' first
      | (simp only [List.mem_singleton] at hu; subst hu; exact hc)
      | split at hu
  | succ fuel' ih =>
    intro current hc u hu
    unfold fetchRequestedUrls at hu
    simp only at hu
    repeat' first
      | (simp only [List.mem_singleton] at hu; subst hu; exact hc)
      | split at hu
    case _ h =>
      rcases List.mem_cons.mp hu with rfl | hu2
      · exact hc
      · exact ih _ h u hu2

/-- C2 counterexample: with every URL validated, `fetch_json_url` returns
`None` when the GET itself raises (the network oracle returns `none`),
a case absent from the claim's enumeration of rejecting steps — the
labelled run ends in `request_failed`, not in any enumerated reason. -/
theorem fetch_json_url_none_without_enumerated_reject :
    fetch_json_url (fun _ _ _ => (true, "")) (fun _ => none) (fun _ => none) (fun _ l => l)
      {} "https://example.com/a" = none ∧
    fetch_json_urlE (fun _ _ _ => (true, "")) (fun _ => none) (fun _ => none) (fun _ l => l)
      {} "https://example.com/a" = .error .request_failed := ⟨rfl, rfl⟩

/-- C2 (amended): `fetch_json_url` returns `None` iff some step rejects,
the rejecting steps being the claim's enumeration PLUS a failing GET
(`request_failed`): the run refines the labelled `fetch_json_urlE`, whose
error type lists exactly those steps; any non-`None` value has an object
root; and every URL actually fetched — the initial one and every redirect
target — passed `validate_public_url` first. -/
theorem fetch_json_url_spec (validate : String → Bool → Bool → Bool × String)
    (net : String → Option HttpResponse) (jparse : List ℕ → Option JsonVal)
    (ujoin : String → String → String) (st : DownloadSettings) (url : String) :
    fetch_json_url validate net jparse ujoin st url =
      (fetch_json_urlE validate net jparse ujoin st url).toOption ∧
    (∀ v, fetch_json_url validate net jparse ujoin st url = some v → v.isObj = true) ∧
    (∀ u ∈ fetch_json_url_requested validate net ujoin st url,
      (validate u st.allow_http st.require_https).1 = true) := by
  refine ⟨?_, ?_, ?_⟩
  · unfold fetch_json_url fetch_json_urlE
    split_ifs with h
    · exact fetchLoop_eq_toOption validate net jparse ujoin st st.max_redirects url
    · rfl
  · intro v h
    unfold fetch_json_url at h
    split_ifs at h with hv
    · exact fetchLoop_isObj validate net jparse ujoin st st.max_redirects url v h
  · intro u hu
    unfold fetch_json_url_requested at hu
    split_ifs at hu with hv
    · exact fetchRequestedUrls_validated validate net ujoin st st.max_redirects url hv u hu
    · simp at hu

/-- Witness for C2 (amended) on a concrete 200/JSON response. -/
theorem fetch_json_url_spec_witness :
    fetch_json_url (fun _ _ _ => (true, ""))
      (fun _ => some ⟨200, none, none, [[123, 125]]⟩)
      (fun _ => some (.obj [])) (fun _ l => l) {} "https://h/x" = some (.obj []) ∧
    JsonVal.isObj (.obj []) = true := by
  have hrun : fetch_json_url (fun _ _ _ => (true, ""))
      (fun _ => some ⟨200, none, none, [[123, 125]]⟩)
      (fun _ => some (.obj [])) (fun _ l => l) {} "https://h/x" = some (.obj []) := by
    simp [fetch_json_url, fetchLoop, totalLen, JsonVal.isObj]
  refine ⟨hrun, ?_⟩
  exact (fetch_json_url_spec (fun _ _ _ => (true, ""))
    (fun _ => some ⟨200, none, none, [[123, 125]]⟩)
    (fun _ => some (.obj [])) (fun _ l => l) {} "https://h/x").2.1 (JsonVal.obj []) hrun

/-! ## Token transport selection (`_request_credentials`)

`httpGet u` / `httpPost u` are the transport oracles: each returns the
response status together with `some body` when the response body parses
as JSON (`try_parse_json` succeeds) or `none` when parsing raises
`ValueError`. -/

/-- `str.startswith` over explicit character lists (the byte-position
`String.startsWith` of core does not reduce in the kernel). -/
def strStartsWith (s p : String) : Bool := p.toList.isPrefixOf s.toList

/-- Split a character list at the first occurrence of `sep` (`none` when
`sep` does not occur). -/
def breakOnFirst (sep : List Char) : List Char → Option (List Char × List Char)
  | [] => none
  | c :: cs =>
    if sep.isPrefixOf (c :: cs) then some ([], (c :: cs).drop sep.length)
    else
      match breakOnFirst sep cs with
      | some (pre, post) => some (c :: pre, post)
      | none => none

/-- Split a URL at `"://"` into scheme and remainder (`none` when the
separator is absent). -/
def splitScheme (url : String) : Option (String × String) :=
  match breakOnFirst "://".toList url.toList with
  | none => none
  | some (scheme, rest) => some (String.mk scheme, String.mk rest)

/-- `urlparse(auth_server_url)._replace(path="/token").geturl()`: keep
scheme, netloc, query and fragment, replace the path by `/token`.  (The
rarely used `;params` component of `urlparse` is not modelled.) -/
def replacePathWithToken (url : String) : String :=
  match splitScheme url with
  | none => "/token"
  | some (scheme, rest) =>
    let restChars := rest.toList
    let isNetlocChar : Char → Bool := fun c => c != '/' && c != '?' && c != '#'
    let netloc := String.mk (restChars.takeWhile isNetlocChar)
    let after := restChars.dropWhile isNetlocChar
    let (beforeFrag, frag) :=
      match breakOnFirst ['#'] after with
      | some (pre, post) => (pre, "#" ++ String.mk post)
      | none => (after, "")
    let query :=
      match breakOnFirst ['?'] beforeFrag with
      | some (_, post) => "?" ++ String.mk post
      | none => ""
    scheme ++ "://" ++ netloc ++ "/token" ++ query ++ frag

/-- The source's dummy-OAuth test:
`auth_server_url.startswith(("http://local_", "http://local-",
"https://local_", "https://local-"))`, i.e. the authority begins with
`local_`/`local-` under an http or https scheme. -/
def indicates_local_dummy_oauth (auth_server_url : String) : Bool :=
  strStartsWith auth_server_url "http://local_" || strStartsWith auth_server_url "http://local-" ||
  strStartsWith auth_server_url "https://local_" || strStartsWith auth_server_url "https://local-"

/-- One outbound request of the token broker, with the payload fields that
distinguish the two transports. -/
inductive TokenRequest
  | getQuery (url : String) (scope : String) (issuer : Option String)
  | postForm (url : String) (audience : String) (scope : String)
  deriving Repr, DecidableEq

/-- `AuthorityCredentialsGetter._request_credentials`: returns the list of
HTTP requests issued, in order, together with the Python outcome.  Branch
structure of the source: the dummy-OAuth prefix selects a single
query-parameter GET; otherwise a form POST is tried first and the GET on the
`/token` path of the same origin runs exactly when the POST's status is not
200 or its body is not parseable JSON.  (In every terminal branch the body
is returned through `try_parse_json`, which raises `ValueError` on
non-JSON regardless of the status code.) -/
def _request_credentials (auth_server_url : String)
    (httpGet httpPost : String → ℕ × Option Credentials)
    (audience : String) (scopes : List String) :
    List TokenRequest × Except PyError Credentials :=
  let issuer : Option String := if audience = "localhost" then some audience else none
  let scopes_str := String.intercalate " " scopes
  if indicates_local_dummy_oauth auth_server_url then
    let g := httpGet auth_server_url
    ([.getQuery auth_server_url scopes_str issuer],
     match g.2 with
     | some j => .ok j
     | none => .error .jsonParseError)
  else
    let p := httpPost auth_server_url
    let fallback : List TokenRequest × Except PyError Credentials :=
      let get_url := replacePathWithToken auth_server_url
      let g := httpGet get_url
      ([.postForm auth_server_url audience scopes_str, .getQuery get_url scopes_str issuer],
       match g.2 with
       | some j => .ok j
       | none => .error .jsonParseError)
    if p.1 = 200 then
      match p.2 with
      | some j => ([.postForm auth_server_url audience scopes_str], .ok j)
      | none => fallback
    else fallback

/-- C5: if the configured token endpoint URL indicates a local dummy-OAuth
(`local_`/`local-` authority under http or https), exactly one GET with
query parameters is issued and no POST; otherwise a form POST is issued
first, and a GET on the `/token` path of the same origin follows if and
only if the POST returned a non-200 status or a non-JSON body. -/
theorem _request_credentials_transport (auth_server_url : String)
    (httpGet httpPost : String → ℕ × Option Credentials)
    (audience : String) (scopes : List String) :
    (indicates_local_dummy_oauth auth_server_url = true →
      (_request_credentials auth_server_url httpGet httpPost audience scopes).1 =
        [.getQuery auth_server_url (String.intercalate " " scopes)
          (if audience = "localhost" then some audience else none)]) ∧
    (indicates_local_dummy_oauth auth_server_url = false →
      ((httpPost auth_server_url).1 = 200 → (httpPost auth_server_url).2 ≠ none →
        (_request_credentials auth_server_url httpGet httpPost audience scopes).1 =
          [.postForm auth_server_url audience (String.intercalate " " scopes)]) ∧
      ((httpPost auth_server_url).1 ≠ 200 ∨ (httpPost auth_server_url).2 = none →
        (_request_credentials auth_server_url httpGet httpPost audience scopes).1 =
          [.postForm auth_server_url audience (String.intercalate " " scopes),
           .getQuery (replacePathWithToken auth_server_url)
             (String.intercalate " " scopes)
             (if audience = "localhost" then some audience else none)])) := by
  constructor
  · intro hlocal
    simp only [_request_credentials, hlocal, if_true]
  · intro hlocal
    constructor
    · intro h200 hbody
      rcases hp : (httpPost auth_server_url).2 with _ | j
      · exact absurd hp hbody
      · simp [_request_credentials, hlocal, h200, hp]
    · intro hfail
      rcases hfail with hfail | hfail
      · simp [_request_credentials, hlocal, hfail]
      · by_cases h200 : (httpPost auth_server_url).1 = 200
        · simp [_request_credentials, hlocal, h200, hfail]
        · simp [_request_credentials, hlocal, h200]

/-- Witness for C5: a non-local endpoint whose POST returns 500, so the GET
fallback on the same-origin `/token` path fires; plus the concrete path
replacement. -/
theorem _request_credentials_transport_witness :
    (_request_credentials "https://auth.example.com/oauth/access" (fun _ => (200, some { access_token := "tX" }))
        (fun _ => (500, none)) "dss.example" rid_scopes).1 =
      [.postForm "https://auth.example.com/oauth/access" "dss.example"
         "rid.service_provider rid.display_provider",
       .getQuery "https://auth.example.com/token"
         "rid.service_provider rid.display_provider" none] ∧
    replacePathWithToken "https://auth.example.com/oauth/access" = "https://auth.example.com/token" := by
  constructor
  · have h := (_request_credentials_transport "https://auth.example.com/oauth/access"
      (fun _ => (200, some { access_token := "tX" })) (fun _ => (500, none))
      "dss.example" rid_scopes).2 (by decide)
    have h2 := h.2 (Or.inl (by decide))
    rw [h2]
    decide
  · decide

/-! ## DSS federation coordinator (`rid_operations/dss_rid_helper.py`)

Dataclasses of `rid_operations.rid_utils` as constructed by the
coordinator; datetimes that only travel through the wire payloads stay
RFC3339 strings. -/

/-- The `RIDTime` dataclass. -/
structure RIDTime where
  value : String
  format : String
  deriving Repr, DecidableEq

/-- The `RIDSubscription` dataclass. -/
structure RIDSubscription where
  id : String
  uss_base_url : String
  owner : String
  notification_index : ℕ
  time_start : RIDTime
  time_end : RIDTime
  version : String
  deriving Repr, DecidableEq

/-- The `IdentificationServiceArea` dataclass. -/
structure IdentificationServiceArea where
  id : String
  uss_base_url : String
  owner : String
  time_start : RIDTime
  time_end : RIDTime
  version : String
  deriving Repr, DecidableEq

/-- The `RIDFlightsRecord` dataclass (service areas to poll plus the
subscription they belong to). -/
structure RIDFlightsRecord where
  service_areas : List IdentificationServiceArea
  subscription : RIDSubscription
  deriving Repr, DecidableEq

/-- The `SubscriptionResponse` dataclass. -/
structure SubscriptionResponse where
  created : Bool
  dss_subscription_id : Option String
  notification_index : ℕ
  deriving Repr, DecidableEq

/-- The arguments of
`FlightBlenderDatabaseWriter.create_rid_subscription_record` (the ORM
write is an external collaborator; the record is modelled as the values
handed to it, with the `flights_dict` JSON kept structured). -/
structure RIDSubscriptionRecord where
  subscription_id : String
  record_id : String
  view_hash : ℕ
  end_datetime : String
  is_simulated : Bool
  view : String
  flights_record : RIDFlightsRecord
  deriving Repr, DecidableEq

/-- `str.strip()` (ASCII whitespace). -/
def strStrip (s : String) : String :=
  String.mk (((s.toList.dropWhile Char.isWhitespace).reverse.dropWhile Char.isWhitespace).reverse)

/-- `str.rstrip("/")`. -/
def strRstripSlash (s : String) : String :=
  String.mk ((s.toList.reverse.dropWhile (fun c => c == '/')).reverse)

/-- `parse_fallback_uss_urls`: split `RID_FALLBACK_USS_URLS` on commas,
trim entries, drop empties, default the scheme to `http://`, strip
trailing slashes. -/
def parse_fallback_uss_urls (raw : String) : List String :=
  let raw := strStrip raw
  if raw = "" then []
  else
    (raw.toList.splitOn ',').filterMap (fun entryChars =>
      let entry := strStrip (String.mk entryChars)
      if entry = "" then none
      else
        let entry :=
          if strStartsWith entry "http://" || strStartsWith entry "https://" then entry
          else "http://" ++ entry
        some (strRstripSlash entry))

/-- `RemoteIDOperations._fallback_subscription`.  `uuids` enumerates the
successive `str(uuid.uuid4())` draws (index 0 is the fallback subscription
id, index `i+1` the id of the `i`-th synthesized service area); `view_hash`
is `int(sha256(view),16) % 10**8`, supplied by the caller.  Note the
persisted record always carries `is_simulated=True` (the source passes the
literal), whatever the method's own `is_simulated` argument was. -/
def _fallback_subscription (fallback_raw : String) (uuids : ℕ → String)
    (view_hash : ℕ) (request_uuid view : String)
    (time_start time_end : RIDTime) (end_datetime uss_base_url : String)
    (_is_simulated : Bool) : SubscriptionResponse × List RIDSubscriptionRecord :=
  let fallback_urls := parse_fallback_uss_urls fallback_raw
  if fallback_urls = [] then
    ({ created := false, dss_subscription_id := none, notification_index := 0 }, [])
  else
    let subscription_id := uuids 0
    let subscription : RIDSubscription :=
      { id := subscription_id, uss_base_url := uss_base_url, owner := "fallback",
        notification_index := 0, time_start := time_start, time_end := time_end, version := "1" }
    let service_areas : List IdentificationServiceArea :=
      ((List.range fallback_urls.length).zip fallback_urls).map (fun p =>
        { id := uuids (p.1 + 1), uss_base_url := p.2, owner := "fallback",
          time_start := time_start, time_end := time_end, version := "1" })
    let flights_record : RIDFlightsRecord :=
      { service_areas := service_areas, subscription := subscription }
    let record : RIDSubscriptionRecord :=
      { subscription_id := subscription_id, record_id := request_uuid,
        view_hash := view_hash, end_datetime := end_datetime, is_simulated := true,
        view := view, flights_record := flights_record }
    ({ created := true, dss_subscription_id := some subscription_id, notification_index := 0 },
     [record])

/-- `RemoteIDOperations.create_dss_subscription`.  `audience` is
`env.get("DSS_SELF_AUDIENCE", "000")`; `tokenResult` the outcome of
`get_cached_credentials`; `putResult` the DSS PUT outcome (`.error` for a
requests exception, otherwise status code with the parsed `service_areas`
and `subscription` of the body); `uuids` enumerates the `uuid.uuid4()`
draws (index 0 is `new_subscription_id`, consumed before the PUT, so the
fallback path draws from index 1 on); `viewHash` models the sha256-derived
view hash.  The RFC3339 window strings and `uss_base_url` are the values
computed from `datetime.now()` and `resolve_flightblender_base_url`. -/
def create_dss_subscription (audience : String)
    (tokenResult : Except PyError Credentials)
    (putResult : Except PyError (ℕ × List IdentificationServiceArea × RIDSubscription))
    (fallback_raw : String) (uuids : ℕ → String) (viewHash : String → ℕ)
    (view request_uuid : String) (time_start time_end : RIDTime)
    (end_datetime uss_base_url : String) (is_simulated : Bool) :
    SubscriptionResponse × List RIDSubscriptionRecord :=
  let noResp : SubscriptionResponse :=
    { created := false, dss_subscription_id := none, notification_index := 0 }
  if audience = "" then (noResp, [])
  else
    match tokenResult with
    | .error _ => (noResp, [])
    | .ok auth_token =>
      if auth_token.error ≠ none then (noResp, [])
      else
        let fallbackUuids : ℕ → String := fun i => uuids (i + 1)
        match putResult with
        | .error _ =>
          _fallback_subscription fallback_raw fallbackUuids (viewHash view) request_uuid view
            time_start time_end end_datetime uss_base_url is_simulated
        | .ok (status, service_areas, dss_subscription) =>
          if status ≠ 200 then
            _fallback_subscription fallback_raw fallbackUuids (viewHash view) request_uuid view
              time_start time_end end_datetime uss_base_url is_simulated
          else
            ({ created := true, dss_subscription_id := some dss_subscription.id,
               notification_index := dss_subscription.notification_index },
             [{ subscription_id := dss_subscription.id, record_id := request_uuid,
                view_hash := viewHash view, end_datetime := end_datetime,
                is_simulated := is_simulated, view := view,
                flights_record := { service_areas := service_areas,
                                    subscription := dss_subscription } }])

/-- C6: when the DSS subscription PUT raises or returns non-200 (the
request gate having been passed: audience set, token obtained without an
`error` member), the call falls back: with no configured fallback USS URL
it returns `created=false`; otherwise it returns `created=true` with the
freshly drawn UUID and `notification_index` 0, and persists exactly one
record that is always `is_simulated=true`, whose subscription has
`owner="fallback"`, and whose service areas list one entry per configured
fallback URL (in order, each owned by `"fallback"`). -/
theorem create_dss_subscription_fallback (audience : String)
    (creds : Credentials)
    (putResult : Except PyError (ℕ × List IdentificationServiceArea × RIDSubscription))
    (fallback_raw : String) (uuids : ℕ → String) (viewHash : String → ℕ)
    (view request_uuid : String) (time_start time_end : RIDTime)
    (end_datetime uss_base_url : String) (is_simulated : Bool)
    (haud : audience ≠ "") (hnoerr : creds.error = none)
    (hfail : (∃ e, putResult = .error e) ∨
             (∃ s rest, putResult = .ok (s, rest) ∧ s ≠ 200)) :
    (parse_fallback_uss_urls fallback_raw = [] →
      create_dss_subscription audience (.ok creds) putResult fallback_raw uuids viewHash
          view request_uuid time_start time_end end_datetime uss_base_url is_simulated =
        ({ created := false, dss_subscription_id := none, notification_index := 0 }, [])) ∧
    (parse_fallback_uss_urls fallback_raw ≠ [] →
      (create_dss_subscription audience (.ok creds) putResult fallback_raw uuids viewHash
          view request_uuid time_start time_end end_datetime uss_base_url is_simulated).1 =
        { created := true, dss_subscription_id := some (uuids 1), notification_index := 0 } ∧
      ∃ record,
        (create_dss_subscription audience (.ok creds) putResult fallback_raw uuids viewHash
            view request_uuid time_start time_end end_datetime uss_base_url is_simulated).2 =
          [record] ∧
        record.is_simulated = true ∧
        record.subscription_id = uuids 1 ∧
        record.flights_record.subscription.owner = "fallback" ∧
        record.flights_record.service_areas.map (fun sa => sa.uss_base_url) =
          parse_fallback_uss_urls fallback_raw ∧
        (∀ sa ∈ record.flights_record.service_areas, sa.owner = "fallback")) := by
  have hcall : create_dss_subscription audience (.ok creds) putResult fallback_raw uuids viewHash
      view request_uuid time_start time_end end_datetime uss_base_url is_simulated =
      _fallback_subscription fallback_raw (fun i => uuids (i + 1)) (viewHash view)
        request_uuid view time_start time_end end_datetime uss_base_url is_simulated := by
    rcases hfail with ⟨e, he⟩ | ⟨s, rest, hok, hs⟩
    · subst he
      simp [create_dss_subscription, haud, hnoerr]
    · subst hok
      simp [create_dss_subscription, haud, hnoerr, hs]
  rw [hcall]
  constructor
  · intro hempty
    simp [_fallback_subscription, hempty]
  · intro hne
    unfold _fallback_subscription
    rw [if_neg hne]
    refine ⟨rfl, ⟨_, rfl, rfl, rfl, rfl, ?_, ?_⟩⟩
    · simp only [List.map_map]
      have : ∀ (l : List String),
          (((List.range l.length).zip l).map
            (Function.comp (fun sa => sa.uss_base_url) (fun p =>
              ({ id := uuids (p.1 + 1 + 1), uss_base_url := p.2, owner := "fallback",
                 time_start := time_start, time_end := time_end,
                 version := "1" } : IdentificationServiceArea)))) = l := by
        intro l
        have hlen : l.length ≤ (List.range l.length).length := by simp
        calc (((List.range l.length).zip l).map _) =
            ((List.range l.length).zip l).map Prod.snd := by
              apply List.map_congr_left
              intro p _
              rfl
          _ = l := List.map_snd_zip _ _ hlen
      exact this _
    · intro sa hsa
      simp only [List.mem_map] at hsa
      obtain ⟨p, _, hp⟩ := hsa
      rw [← hp]

/-- Witness for C6: the spec's literal scenario — DSS PUT raises,
`RID_FALLBACK_USS_URLS="https://uss1.example,https://uss2.example"`. -/
theorem create_dss_subscription_fallback_witness :
    (create_dss_subscription "self.example" (.ok { access_token := "t1" }) (.error .requestException)
        "https://uss1.example,https://uss2.example"
        (fun i => if i = 0 then "u0" else if i = 1 then "u1" else "uX") (fun _ => 42)
        "v" "r" ⟨"s", "RFC3339"⟩ ⟨"e", "RFC3339"⟩ "e" "http://fb/rid" false).1 =
      { created := true, dss_subscription_id := some "u1", notification_index := 0 } ∧
    parse_fallback_uss_urls "https://uss1.example,https://uss2.example" =
      ["https://uss1.example", "https://uss2.example"] := by
  have h := create_dss_subscription_fallback "self.example" { access_token := "t1" }
      (.error .requestException) "https://uss1.example,https://uss2.example"
      (fun i => if i = 0 then "u0" else if i = 1 then "u1" else "uX") (fun _ => 42)
      "v" "r" ⟨"s", "RFC3339"⟩ ⟨"e", "RFC3339"⟩ "e" "http://fb/rid" false
      (by decide) rfl (Or.inl ⟨_, rfl⟩)
  refine ⟨?_, by decide⟩
  rw [(h.2 (by decide)).1]
  rfl

/-! ## Create ISA and notify subscribers (`create_dss_isa`) -/

/-- The `SubscriptionState` dataclass. -/
structure SubscriptionState where
  subscription_id : String
  notification_index : ℕ
  deriving Repr, DecidableEq

/-- The `SubscriberToNotify` dataclass. -/
structure SubscriberToNotify where
  url : String
  subscriptions : List SubscriptionState
  deriving Repr, DecidableEq

/-- The `ISACreationResponse` dataclass. -/
structure ISACreationResponse where
  created : Bool
  service_area : Option IdentificationServiceArea
  subscribers : List SubscriberToNotify
  deriving Repr, DecidableEq

/-- The per-subscriber audience rule of `create_dss_isa`: `extract` models
`tldextract.extract` returning `(subdomain, domain, suffix)` (`none` when it
raises); a domain in `{localhost, internal, localutm}` maps to
`"localhost"`, otherwise the audience is `".".join(ext[:3])`. -/
def audience_for_subscriber (extract : String → Option (String × String × String))
    (url : String) : String :=
  match extract url with
  | none => "localhost"
  | some (sub, dom, suf) =>
    if dom = "localhost" ∨ dom = "internal" ∨ dom = "localutm" then "localhost"
    else String.intercalate "." [sub, dom, suf]

/-- The subscriber-notification loop of `create_dss_isa`.  Obtaining the
per-subscriber token (`tokenFetch`, modelling `get_cached_credentials`) is
NOT wrapped in `try`, so its exception propagates; the POST is wrapped
(`except … continue`), so its outcome — exception, 204 or any other
status — never affects the loop. -/
def notify_subscribers (tokenFetch : String → Except PyError Credentials)
    (extract : String → Option (String × String × String))
    (post : String → Except PyError ℕ) (new_isa_id : String) :
    List SubscriberToNotify → Except PyError Unit
  | [] => .ok ()
  | s :: rest =>
    match tokenFetch (audience_for_subscriber extract s.url) with
    | .error e => .error e
    | .ok _ =>
      let _ := post (s.url ++ "/uss/identification_service_areas/" ++ new_isa_id)
      notify_subscribers tokenFetch extract post new_isa_id rest

/-- `RemoteIDOperations.create_dss_isa`.  `audience` is
`env.get("DSS_SELF_AUDIENCE", "000")` (empty means the assert fails);
`tokenFetch` serves both the top-level RID token (at `audience`) and the
per-subscriber tokens; `putResult` is the DSS PUT outcome with the parsed
`service_area` and `subscribers`.  The pre-PUT failures are all caught and
yield the empty response; after a 200, the subscriber loop runs and the
response carries the parsed `service_area` and `subscribers`.  (The
`isa-{id}` Redis TTL marker write is not modelled.) -/
def create_dss_isa (audience : String)
    (tokenFetch : String → Except PyError Credentials)
    (putResult : Except PyError (ℕ × IdentificationServiceArea × List SubscriberToNotify))
    (extract : String → Option (String × String × String))
    (post : String → Except PyError ℕ) (new_isa_id : String) :
    Except PyError ISACreationResponse :=
  let emptyResp : ISACreationResponse :=
    { created := false, service_area := none, subscribers := [] }
  if audience = "" then .ok emptyResp
  else
    match tokenFetch audience with
    | .error _ => .ok emptyResp
    | .ok auth_token =>
      if auth_token.error ≠ none then .ok emptyResp
      else
        match putResult with
        | .error _ => .ok emptyResp
        | .ok (status, service_area, subscribers) =>
          if status ≠ 200 then .ok emptyResp
          else
            match notify_subscribers tokenFetch extract post new_isa_id subscribers with
            | .error e => .error e
            | .ok _ =>
              .ok { created := true, service_area := some service_area,
                    subscribers := subscribers }

/-- C7 counterexample: with the DSS PUT returning 200 and one subscriber
whose per-subscriber token fetch raises, `create_dss_isa` raises instead of
returning a response — the claim says every failure while notifying an
individual subscriber, including a failure to obtain its access token, is
swallowed. -/
theorem create_dss_isa_raises_on_subscriber_token_failure :
    create_dss_isa "self.example"
      (fun a => if a = "self.example" then .ok { access_token := "t1" }
                else .error .requestException)
      (.ok (200,
            { id := "isa1", uss_base_url := "https://me.example", owner := "me",
              time_start := ⟨"s", "RFC3339"⟩, time_end := ⟨"e", "RFC3339"⟩, version := "1" },
            [{ url := "https://uss.peer.example", subscriptions := [] }]))
      (fun _ => some ("uss", "peer", "example"))
      (fun _ => .ok 204) "new-isa" = .error .requestException := by
  rfl

/-- C7 (amended): after the DSS returns 200, a failure of the POST to an
individual subscriber is logged and swallowed — the result does not depend
on the `post` oracle at all and the call still returns `created` with the
parsed `service_area` and `subscribers` — but only provided every
per-subscriber token fetch succeeds; a token-fetch failure propagates out
of `create_dss_isa` (see the counterexample). -/
theorem create_dss_isa_swallows_post_failures (audience : String)
    (tokenFetch : String → Except PyError Credentials)
    (extract : String → Option (String × String × String))
    (post post' : String → Except PyError ℕ) (new_isa_id : String)
    (creds : Credentials) (status : ℕ)
    (service_area : IdentificationServiceArea) (subscribers : List SubscriberToNotify)
    (haud : audience ≠ "")
    (htok : tokenFetch audience = .ok creds) (hnoerr : creds.error = none)
    (hstatus : status = 200)
    (hsubs : ∀ s ∈ subscribers,
      ∃ c, tokenFetch (audience_for_subscriber extract s.url) = .ok c) :
    create_dss_isa audience tokenFetch (.ok (status, service_area, subscribers))
        extract post new_isa_id =
      .ok { created := true, service_area := some service_area,
            subscribers := subscribers } ∧
    create_dss_isa audience tokenFetch (.ok (status, service_area, subscribers))
        extract post new_isa_id =
      create_dss_isa audience tokenFetch (.ok (status, service_area, subscribers))
        extract post' new_isa_id := by
  have hloop : ∀ (p : String → Except PyError ℕ) (subs : List SubscriberToNotify),
      (∀ s ∈ subs, ∃ c, tokenFetch (audience_for_subscriber extract s.url) = .ok c) →
      notify_subscribers tokenFetch extract p new_isa_id subs = .ok () := by
    intro p subs
    induction subs with
    | nil => intro _; rfl
    | cons s rest ih =>
      intro hall
      obtain ⟨c, hc⟩ := hall s (List.mem_cons_self s rest)
      simp only [notify_subscribers, hc]
      exact ih (fun x hx => hall x (List.mem_cons_of_mem s hx))
  subst hstatus
  have h1 : create_dss_isa audience tokenFetch (.ok (200, service_area, subscribers))
      extract post new_isa_id =
      .ok { created := true, service_area := some service_area,
            subscribers := subscribers } := by
    simp [create_dss_isa, haud, htok, hnoerr, hloop post subscribers hsubs]
  have h2 : create_dss_isa audience tokenFetch (.ok (200, service_area, subscribers))
      extract post' new_isa_id =
      .ok { created := true, service_area := some service_area,
            subscribers := subscribers } := by
    simp [create_dss_isa, haud, htok, hnoerr, hloop post' subscribers hsubs]
  exact ⟨h1, h1.trans h2.symm⟩

/-- Witness for C7 (amended): one subscriber, its POST raising, the call
still succeeds. -/
theorem create_dss_isa_swallows_post_failures_witness :
    create_dss_isa "self.example" (fun _ => .ok { access_token := "t1" })
      (.ok (200,
            { id := "isa1", uss_base_url := "https://me.example", owner := "me",
              time_start := ⟨"s", "RFC3339"⟩, time_end := ⟨"e", "RFC3339"⟩, version := "1" },
            [{ url := "https://uss.peer.example", subscriptions := [] }]))
      (fun _ => some ("uss", "peer", "example"))
      (fun _ => .error .requestException) "new-isa" =
    .ok { created := true,
          service_area := some
            { id := "isa1", uss_base_url := "https://me.example", owner := "me",
              time_start := ⟨"s", "RFC3339"⟩, time_end := ⟨"e", "RFC3339"⟩, version := "1" },
          subscribers := [{ url := "https://uss.peer.example", subscriptions := [] }] } := by
  exact (create_dss_isa_swallows_post_failures "self.example"
    (fun _ => .ok { access_token := "t1" })
    (fun _ => some ("uss", "peer", "example"))
    (fun _ => .error .requestException) (fun _ => .ok 204) "new-isa"
    { access_token := "t1" } 200
    { id := "isa1", uss_base_url := "https://me.example", owner := "me",
      time_start := ⟨"s", "RFC3339"⟩, time_end := ⟨"e", "RFC3339"⟩, version := "1" }
    [{ url := "https://uss.peer.example", subscriptions := [] }]
    (by decide) rfl rfl rfl
    (fun s _ => ⟨{ access_token := "t1" }, rfl⟩)).1

/-! ## Scope-enforcing request gate (`auth_helper/utils.py`) -/

/-- Python `str.split()` (split on whitespace runs, dropping empties). -/
def pySplitWhitespace (s : String) : List String :=
  ((s.toList.splitOnP Char.isWhitespace).filter (fun l => l ≠ [])).map String.mk

/-- Truthiness of an optional string claim (`None` and `""` are falsy). -/
def optStrTruthy : Option String → Bool
  | none => false
  | some s => s != ""

/-- `urlparse(iss)` check of the bypass path: an http/https scheme with a
non-empty netloc. -/
def isValidHttpUrl (s : String) : Bool :=
  match splitScheme s with
  | none => false
  | some (scheme, rest) =>
    (scheme == "http" || scheme == "https") &&
    rest.toList.takeWhile (fun c => c != '/' && c != '?' && c != '#') != []

/-- The decoded (unverified) token claims the bypass path inspects. -/
structure TokenClaims where
  scope : Option String
  iss : Option String
  aud : Option String
  deriving Repr, DecidableEq

/-- The observable outcome of the gate: a JSON error response with a
status, or the wrapped handler being invoked. -/
inductive GateResult where
  | response (status : ℕ)
  | handler
  deriving Repr, DecidableEq

/-- `handle_bypass_verification(token, required_scopes, f, …)`: decode
without signature (`decoded = none` models `jwt.DecodeError`), then require
every required scope to be in the token's scope set (403 otherwise), then a
non-empty `iss` that is `"dummy"` or a valid http/https URL, then a
non-empty `aud`.  It takes no `allow_any` argument at all. -/
def handle_bypass_verification (decoded : Option TokenClaims)
    (required_scopes : List String) : GateResult :=
  match decoded with
  | none => .response 401
  | some claims =>
    let decoded_scopes_set := pySplitWhitespace (claims.scope.getD "")
    if ¬ (required_scopes.all (fun r => decoded_scopes_set.contains r)) then .response 403
    else if optStrTruthy claims.iss = false then .response 401
    else
      let iss := claims.iss.getD ""
      if iss ≠ "dummy" ∧ isValidHttpUrl iss = false then .response 401
      else if optStrTruthy claims.aud = false then .response 401
      else .handler

/-- Python int truthiness for `BYPASS_AUTH_TOKEN_VERIFICATION` / `IS_DEBUG`. -/
def truthyInt (n : ℤ) : Bool := n != 0

/-- The `decorated` wrapper produced by `requires_scopes(required_scopes,
allow_any)`: parse the `Authorization` header, decode the unverified
header, and when `BYPASS_AUTH_TOKEN_VERIFICATION and IS_DEBUG` are both
truthy take the bypass path — `handle_bypass_verification` is called
WITHOUT `allow_any`.  The signature-verifying continuation (JWKS fetch,
RS256 verification, the scope check that does honour `allow_any`) is
abstracted as `verified_flow`. -/
def requires_scopes_gate (bypass_auth_token_verification is_debug : ℤ)
    (auth_header : Option String) (header_decodable : Bool)
    (decoded : Option TokenClaims) (required_scopes : List String)
    (_allow_any : Bool) (verified_flow : GateResult) : GateResult :=
  match auth_header with
  | none => .response 401
  | some auth =>
    if (pySplitWhitespace auth).length ≤ 1 then .response 401
    else if header_decodable = false then .response 401
    else if truthyInt bypass_auth_token_verification && truthyInt is_debug then
      handle_bypass_verification decoded required_scopes
    else verified_flow

/-- C9: on the bypass path (both flags truthy, well-formed bearer header,
decodable token) the gate's outcome is `handle_bypass_verification`, which
ignores `allow_any` entirely: the result is identical for any two
`allow_any` values (and any two verified-flow continuations), and whenever
some required scope is missing from the token's scope set the gate answers
403 — even with `allow_any = true` and a non-empty intersection. -/
theorem bypass_scope_check_ignores_allow_any
    (bypass is_debug : ℤ) (auth : String) (claims : TokenClaims)
    (required_scopes : List String)
    (hb : truthyInt bypass = true) (hd : truthyInt is_debug = true)
    (hauth : ¬ (pySplitWhitespace auth).length ≤ 1) :
    (∀ (a1 a2 : Bool) (vf1 vf2 : GateResult),
      requires_scopes_gate bypass is_debug (some auth) true (some claims)
          required_scopes a1 vf1 =
        requires_scopes_gate bypass is_debug (some auth) true (some claims)
          required_scopes a2 vf2) ∧
    (∀ (vf : GateResult),
      requires_scopes_gate bypass is_debug (some auth) true (some claims)
          required_scopes true vf =
        handle_bypass_verification (some claims) required_scopes) ∧
    (¬ (required_scopes.all (fun r =>
          (pySplitWhitespace (claims.scope.getD "")).contains r)) →
      ∀ (vf : GateResult),
        requires_scopes_gate bypass is_debug (some auth) true (some claims)
            required_scopes true vf = .response 403) := by
  have hgate : ∀ (a : Bool) (vf : GateResult),
      requires_scopes_gate bypass is_debug (some auth) true (some claims)
          required_scopes a vf =
        handle_bypass_verification (some claims) required_scopes := by
    intro a vf
    simp [requires_scopes_gate, hauth, hb, hd]
  refine ⟨fun a1 a2 vf1 vf2 => (hgate a1 vf1).trans (hgate a2 vf2).symm,
          fun vf => hgate true vf, ?_⟩
  intro hmiss vf
  rw [hgate true vf]
  unfold handle_bypass_verification
  simp only
  rw [if_pos hmiss]

/-- Witness for C9: required scopes `{a, b}`, token scope set `{a, c}` —
non-empty intersection but not a superset — is rejected with 403 although
`allow_any = true`. -/
theorem bypass_scope_check_ignores_allow_any_witness :
    requires_scopes_gate 1 1 (some "Bearer token-x") true
        (some { scope := some "a c", iss := some "dummy", aud := some "aud1" })
        ["a", "b"] true .handler = .response 403 := by
  exact (bypass_scope_check_ignores_allow_any 1 1 "Bearer token-x"
    { scope := some "a c", iss := some "dummy", aud := some "aud1" }
    ["a", "b"] rfl rfl (by decide)).2.2 (by decide) .handler

end AtcBlender
